import Mathlib

/-!
Shallow embedding of `src/simulation/quantum_channel.py`
(class `QuantumChannelSimulator`) from the timesync repository.

Modelling conventions:
* Python floats that only undergo field arithmetic are modelled as `ℚ`;
  the transcendental pieces of the channel model (`exp`, `10 ** x`) live
  in `ℝ`.
* numpy's non-raising float division (which yields `inf`/`-inf`/`nan`
  with a runtime warning instead of throwing) is modelled by `NpVal`.
* The process-wide numpy random generator is modelled as an explicit
  stream `g : ℕ → ℚ` of uniform draws together with a cursor `k : ℕ`
  that each stage advances; a fixed stream plays the role of a fixed
  seed.
* Python exceptions (`ValueError` raised by `validate_config` itself or
  by numpy inside the later stages) are modelled with `Except String`.
-/

/-- The factor `1E-12` converting the picosecond `time_bin` to seconds. -/
def picoScale : ℚ := 1 / 1000000000000

/-- Raw request dictionary: the nine numeric leaves of
`{alice: {mu1, mu2, p1}, bob: {darkCount, timeBin},
  channel: {loss, syncError}, processing: {blockSize, maxOffset}}`.
`none` models an absent key (Python `KeyError`); present values are
numeric. -/
structure RawConfig where
  alice_mu1 : Option ℚ
  alice_mu2 : Option ℚ
  alice_p1 : Option ℚ
  bob_darkCount : Option ℚ
  bob_timeBin : Option ℚ
  channel_loss : Option ℚ
  channel_syncError : Option ℚ
  processing_blockSize : Option ℚ
  processing_maxOffset : Option ℚ
deriving DecidableEq, Repr

/-- `SimulationConfig` dataclass of `quantum_channel.py`. -/
structure SimulationConfig where
  signal_power : ℚ
  decoy_power : ℚ
  signal_prob : ℚ
  dark_count_rate : ℚ
  time_bin : ℚ
  channel_loss_db : ℚ
  sync_error_ppm : ℚ
  block_size : ℤ
  max_offset : ℤ
deriving DecidableEq, Repr

/-- Python `int(x)` on a numeric value: truncation toward zero. -/
def pyInt (q : ℚ) : ℤ := q.num.tdiv q.den

/-- `QuantumChannelSimulator.validate_config`: reads the nine keys,
coerces `float`/`int`, and wraps a missing key (`KeyError`) in
`ValueError("Invalid configuration: ...")`.  The source performs **no**
range checks. -/
def validate_config (raw : RawConfig) : Except String SimulationConfig :=
  match raw.alice_mu1, raw.alice_mu2, raw.alice_p1, raw.bob_darkCount,
      raw.bob_timeBin, raw.channel_loss, raw.channel_syncError,
      raw.processing_blockSize, raw.processing_maxOffset with
  | some mu1, some mu2, some p1, some dc, some tb, some loss, some se,
      some bs, some mo =>
    Except.ok {
      signal_power := mu1
      decoy_power := mu2
      signal_prob := p1
      dark_count_rate := dc
      time_bin := tb
      channel_loss_db := loss
      sync_error_ppm := se
      block_size := pyInt bs
      max_offset := pyInt mo }
  | _, _, _, _, _, _, _, _, _ =>
    Except.error "Invalid configuration: missing key"

/-- The stream of uniform draws standing in for the global numpy
random generator. -/
abbrev Rng := ℕ → ℚ

/-- One element drawn by
`np.random.choice([signal_power, decoy_power], p=[p, 1-p])`:
the signal value is selected iff the uniform draw falls below `p`. -/
def choiceDraw (cfg : SimulationConfig) (p u : ℚ) : ℚ :=
  if u < p then cfg.signal_power else cfg.decoy_power

/-- The validity check `np.random.choice` performs on its `p` argument
before sampling: every entry of `[p, 1-p]` must be non-negative
(otherwise `ValueError: probabilities are not non-negative`). -/
def choiceProbBad (p : ℚ) : Prop := p < 0 ∨ 1 - p < 0

instance (p : ℚ) : Decidable (choiceProbBad p) := by
  unfold choiceProbBad; infer_instance

/-- A block of `n` draws from `np.random.choice(...)` starting at
stream cursor `k`. -/
def choiceBlock (cfg : SimulationConfig) (p : ℚ) (g : Rng) (k n : ℕ) :
    List ℚ :=
  (List.range n).map (fun i => choiceDraw cfg p (g (k + i)))

/-- `QuantumChannelSimulator.generate_states`.  Draws `block_size`
pulses and derives the intensity array by the comparison
`(states == config.signal_power).astype(int)`.  Errors reproduce the
`ValueError`s `np.random.choice` raises for a bad probability vector or
a negative size.  Returns the advanced stream cursor. -/
def generate_states (cfg : SimulationConfig) (g : Rng) (k : ℕ) :
    Except String (List ℚ × List ℤ × ℕ) :=
  if choiceProbBad cfg.signal_prob then
    Except.error "probabilities are not non-negative"
  else if cfg.block_size < 0 then
    Except.error "negative dimensions are not allowed"
  else
    let states := choiceBlock cfg cfg.signal_prob g k cfg.block_size.toNat
    let intensity := states.map (fun s => if s = cfg.signal_power then (1 : ℤ) else 0)
    Except.ok (states, intensity, k + cfg.block_size.toNat)

/-- numpy float value: finite, signed infinity, or nan.  Used where the
source divides without guarding against a zero denominator. -/
inductive NpVal where
  | fin (q : ℚ)
  | pinf
  | ninf
  | nan
deriving DecidableEq, Repr

/-- numpy division of two finite values: division by zero warns and
yields `inf`/`-inf`/`nan` instead of raising. -/
def npDiv (a b : ℚ) : NpVal :=
  if b = 0 then
    if a = 0 then NpVal.nan else if 0 < a then NpVal.pinf else NpVal.ninf
  else NpVal.fin (a / b)

/-- numpy division of a finite value by a possibly non-finite one. -/
def npDivV (a : ℚ) : NpVal → NpVal
  | NpVal.fin q => npDiv a q
  | NpVal.pinf => NpVal.fin 0
  | NpVal.ninf => NpVal.fin 0
  | NpVal.nan => NpVal.nan

/-- Number of `True` entries in a detection array (`np.sum`). -/
def countTrue (l : List Bool) : ℕ := (l.filter (fun b => b)).length

/-- `QuantumChannelSimulator.calculate_statistics`: total counts, mean
rate `total/duration`, and
`qber = dark_contribution / (total_counts / len(detections))` — the
divisions are unguarded, so a zero denominator produces a non-finite
`NpVal` exactly as numpy does. -/
def calculate_statistics (detections : List Bool) (cfg : SimulationConfig) :
    ℤ × NpVal × NpVal :=
  let total : ℤ := countTrue detections
  let duration : ℚ := (detections.length : ℚ) * cfg.time_bin * picoScale
  let mean_rate := npDiv (total : ℚ) duration
  let dark_contribution : ℚ := cfg.dark_count_rate * (cfg.time_bin * picoScale)
  let qber := npDivV dark_contribution (npDiv (total : ℚ) (detections.length : ℚ))
  (total, mean_rate, qber)

/-- `attenuation = 10 ** (config.channel_loss_db / 10)` (real power). -/
noncomputable def attenuation (cfg : SimulationConfig) : ℝ :=
  (10 : ℝ) ^ ((cfg.channel_loss_db : ℝ) / 10)

/-- `P_dark = 1 - np.exp(-dark_count_rate * time_bin * 1E-12)`. -/
noncomputable def darkProb (cfg : SimulationConfig) : ℝ :=
  1 - Real.exp (-((cfg.dark_count_rate : ℝ) * (cfg.time_bin : ℝ) * (picoScale : ℝ)))

/-- Per-bin detection probability
`1 - np.exp(-pulse * attenuation) + P_dark`; applied to the extended
pulse sequence with no clamping to `[0,1]`. -/
noncomputable def detectionProb (cfg : SimulationConfig) (pulse : ℚ) : ℝ :=
  1 - Real.exp (-((pulse : ℝ) * attenuation cfg)) + darkProb cfg

/-- `np.random.randint(0, n)` realised from one uniform stream draw;
always lands in `[0, n-1]`. -/
def randBelow (u : ℚ) (n : ℕ) : ℕ := (Int.toNat ⌊u * (n : ℚ)⌋) % n

/-- `np.random.rand(len(detection_prob)) < detection_prob`: one Bernoulli
draw per bin of the extended sequence, thresholded directly against the
unclamped `detectionProb`. -/
noncomputable def sampleDetections (cfg : SimulationConfig) (g : Rng) (k : ℕ)
    (ext : List ℚ) : List Bool :=
  (List.range ext.length).map
    (fun i => if (g (k + i) : ℝ) < detectionProb cfg (ext.getD i 0) then true else false)

/-- `QuantumChannelSimulator.apply_channel_effects`: picks the delay
(`injected` or `max_offset + randint(0, 1001)`), pads the block with
`delay` fresh pulses on each side, and samples the detections.  The
`ValueError`s are the ones `np.random.choice` raises for a bad
probability vector or a negative size. -/
noncomputable def apply_channel_effects (states : List ℚ) (cfg : SimulationConfig)
    (g : Rng) (k : ℕ) (injected : Option ℤ) :
    Except String (List Bool × ℤ × ℕ) :=
  let dk : ℤ × ℕ :=
    match injected with
    | some d => (d, k)
    | none => (cfg.max_offset + (randBelow (g k) 1001 : ℤ), k + 1)
  let delay := dk.1
  let k1 := dk.2
  if choiceProbBad cfg.signal_prob then
    Except.error "probabilities are not non-negative"
  else if delay < 0 then
    Except.error "negative dimensions are not allowed"
  else
    let d := delay.toNat
    let front_pad := choiceBlock cfg cfg.signal_prob g k1 d
    let end_pad := choiceBlock cfg cfg.signal_prob g (k1 + d) d
    let extended_states := front_pad ++ states ++ end_pad
    let detections := sampleDetections cfg g (k1 + d + d) extended_states
    Except.ok (detections, delay, k1 + d + d + extended_states.length)

/-- `scipy.signal.correlate(x, y, mode='valid')` for integer sequences
with `len x ≤ len y`: entry `t` is `Σ_j x[j] * y[(len y - len x - t) + j]`
(scipy computes the valid part of `convolve(x, reverse y)`, which runs
the lag axis in this order).  When either input is empty scipy returns
an empty array and the subsequent `np.argmax` raises; this definition is
kept total (it yields `len y + 1` zero entries for empty `x`), and `run`
reproduces that `ValueError` explicitly before ever reaching the
collapsed case. -/
def crossCorrValid (x y : List ℤ) : List ℤ :=
  (List.range (y.length - x.length + 1)).map (fun t =>
    ((List.range x.length).map
      (fun j => x.getD j 0 * y.getD (y.length - x.length - t + j) 0)).sum)

/-- Tail worker for `np.argmax`: scans left to right keeping the first
index of the strictly largest value seen so far. -/
def argmaxAux : List ℤ → ℕ → ℕ → ℤ → ℕ
  | [], _, bi, _ => bi
  | v :: rest, i, bi, bv =>
    if bv < v then argmaxAux rest (i + 1) i v else argmaxAux rest (i + 1) bi bv

/-- `np.argmax`: index of the maximum, first occurrence on ties.  On an
empty array numpy raises `ValueError`; this definition returns `0`
there, and `run` models the raise explicitly (the `find_delay` claims
assume a nonempty trace). -/
def argmaxFirst : List ℤ → ℕ
  | [] => 0
  | v :: rest => argmaxAux rest 1 0 v

/-- `QuantumChannelSimulator.find_delay`: valid-mode cross-correlation,
arg-max lag, centered time axis `i - len//2`, and the tolerance test
`abs(optimal_lag - actual_delay) <= abs(sync_error_ppm * 1e-6 * block_size)`.
Total: failure is only ever the returned flag. -/
def find_delay (intensity : List ℤ) (detections : List Bool)
    (cfg : SimulationConfig) (actual_delay : ℤ) :
    List ℤ × List ℤ × ℕ × Bool :=
  let det := detections.map (fun b => if b then (1 : ℤ) else 0)
  let cross_corr := crossCorrValid intensity det
  let optimal_lag := argmaxFirst cross_corr
  let time_points :=
    (List.range cross_corr.length).map
      (fun i => (i : ℤ) - ((cross_corr.length / 2 : ℕ) : ℤ))
  let sync_success :=
    decide (|(optimal_lag : ℚ) - (actual_delay : ℚ)| ≤
      |cfg.sync_error_ppm * (1 / 1000000) * (cfg.block_size : ℚ)|)
  (time_points, cross_corr, optimal_lag, sync_success)

/-- The fields the result dictionary of `run` carries. -/
structure RunOutput where
  time_points : List ℤ
  cross_correlation : List ℤ
  counts : List Bool
  peak_position : ℕ
  total_counts : ℤ
  mean_count_rate : NpVal
  qber : NpVal
  sync_success : Bool

/-- `QuantumChannelSimulator.run`: validate, generate, channel, delay
search, statistics, packaged into the result record.  The random stream
cursor starts at `0` and is threaded through the stages exactly as the
global numpy generator is consumed.  Inside the delay search,
`scipy.signal.correlate(..., mode='valid', method='fft')` returns an
empty array when either of its inputs is empty and `np.argmax` then
raises `ValueError`; the guard before `find_delay` reproduces that
raise (the embedded `find_delay` itself is total). -/
noncomputable def run (raw : RawConfig) (g : Rng) : Except String RunOutput :=
  match validate_config raw with
  | Except.error e => Except.error e
  | Except.ok cfg =>
    match generate_states cfg g 0 with
    | Except.error e => Except.error e
    | Except.ok (states, intensity, k1) =>
      match apply_channel_effects states cfg g k1 none with
      | Except.error e => Except.error e
      | Except.ok (detections, actual_delay, _) =>
        if intensity = [] ∨ detections = [] then
          Except.error "attempt to get argmax of an empty sequence"
        else
        let fd := find_delay intensity detections cfg actual_delay
        let st := calculate_statistics detections cfg
        Except.ok {
          time_points := fd.1
          cross_correlation := fd.2.1
          counts := detections
          peak_position := fd.2.2.1
          total_counts := st.1
          mean_count_rate := st.2.1
          qber := st.2.2
          sync_success := fd.2.2.2 }

example :
    validate_config {
      alice_mu1 := some (1/10), alice_mu2 := some (1/20), alice_p1 := some (3/2),
      bob_darkCount := some 100, bob_timeBin := some 100,
      channel_loss := some (1/5), channel_syncError := some (1/10),
      processing_blockSize := some 1000, processing_maxOffset := some 50 }
    = Except.ok {
      signal_power := 1/10, decoy_power := 1/20, signal_prob := 3/2,
      dark_count_rate := 100, time_bin := 100,
      channel_loss_db := 1/5, sync_error_ppm := 1/10,
      block_size := 1000, max_offset := 50 } := rfl

example :
    (calculate_statistics [false, false]
      { signal_power := 1, decoy_power := 0, signal_prob := 1,
        dark_count_rate := 100, time_bin := 100, channel_loss_db := 0,
        sync_error_ppm := 0, block_size := 2, max_offset := 0 }).2.2
    = NpVal.pinf := by norm_num [calculate_statistics, countTrue, npDiv, npDivV, picoScale]

/-- A well-formed raw request (the values of `tests/test_quantum_channel.py`,
with `timeBin` in picoseconds). -/
def rawGood : RawConfig := {
  alice_mu1 := some (1/10), alice_mu2 := some (1/20), alice_p1 := some (4/5),
  bob_darkCount := some 100, bob_timeBin := some 100,
  channel_loss := some (1/5), channel_syncError := some (1/10),
  processing_blockSize := some 1000, processing_maxOffset := some 50 }

/-- `rawGood` with `alice.p1 = 1.5` (out of range). -/
def rawP1Bad : RawConfig := { rawGood with alice_p1 := some (3/2) }

/-- `rawGood` with `processing.blockSize = 0` (not a positive integer). -/
def rawBS0 : RawConfig := { rawGood with processing_blockSize := some 0 }

/-- The config `validate_config` produces from `rawP1Bad`. -/
def cfgP1Bad : SimulationConfig := {
  signal_power := 1/10, decoy_power := 1/20, signal_prob := 3/2,
  dark_count_rate := 100, time_bin := 100,
  channel_loss_db := 1/5, sync_error_ppm := 1/10,
  block_size := 1000, max_offset := 50 }

/-- Small config used for concrete checks of the later stages. -/
def cfgSmall : SimulationConfig := {
  signal_power := 1, decoy_power := 0, signal_prob := 1/2,
  dark_count_rate := 100, time_bin := 100,
  channel_loss_db := 1/5, sync_error_ppm := 1/10,
  block_size := 2, max_offset := 0 }

/-- A fixed uniform stream (the role of a fixed seed). -/
def gHalf : Rng := fun _ => 1/2

/-- Claim C1: the spec and the repository's own test
(`test_config_validation`) require `validate_config` to reject
`signal_prob = 1.5` and `block_size = 0`; the source performs no range
checks, so both raw configurations are accepted and the out-of-range
values are stored verbatim. -/
theorem validate_config_accepts_out_of_range_values :
    (∃ cfg, validate_config rawP1Bad = Except.ok cfg ∧ cfg.signal_prob = 3/2) ∧
    (∃ cfg, validate_config rawBS0 = Except.ok cfg ∧ cfg.block_size = 0) :=
  ⟨⟨cfgP1Bad, rfl, rfl⟩, ⟨_, rfl, rfl⟩⟩

/-- Claim C9: `run` is a function of the raw configuration and the
random source alone — two invocations with identical config and an
identically seeded source agree bit for bit.  (The process-wide numpy
generator is the explicit stream `g`, so the hyperproperty is
definitional in the embedding.) -/
theorem run_deterministic (raw1 raw2 : RawConfig) (g1 g2 : Rng)
    (hraw : raw1 = raw2) (hg : g1 = g2) : run raw1 g1 = run raw2 g2 := by
  subst hraw; subst hg; rfl

theorem run_deterministic_witness : run rawGood gHalf = run rawGood gHalf :=
  run_deterministic rawGood rawGood gHalf gHalf rfl rfl

/-- Claim C7: the valid-mode cross-correlation trace computed by
`find_delay` has length `len(detections) - len(intensity) + 1` whenever
the detection sequence is at least as long as the indicator. -/
theorem find_delay_trace_length (intensity : List ℤ) (detections : List Bool)
    (cfg : SimulationConfig) (a : ℤ)
    (_h : intensity.length ≤ detections.length) :
    (find_delay intensity detections cfg a).2.1.length
      = detections.length - intensity.length + 1 := by
  simp [find_delay, crossCorrValid]

theorem find_delay_trace_length_witness :
    [(1 : ℤ)].length ≤ [true, false].length ∧
      (find_delay [1] [true, false] cfgSmall 0).2.1.length
        = [true, false].length - [(1 : ℤ)].length + 1 :=
  ⟨by decide,
    find_delay_trace_length [1] [true, false] cfgSmall 0 (by decide)⟩

/-- Position `i` is the arg-max of `l`, first occurrence on ties. -/
def isFirstArgmax (l : List ℤ) (i : ℕ) : Prop :=
  i < l.length ∧ (∀ j < l.length, l.getD j 0 ≤ l.getD i 0) ∧
    ∀ j < i, l.getD j 0 < l.getD i 0

instance (l : List ℤ) (i : ℕ) : Decidable (isFirstArgmax l i) := by
  unfold isFirstArgmax; infer_instance

theorem argmaxAux_spec (rest : List ℤ) :
    ∀ (pre : List ℤ) (bi : ℕ) (bv : ℤ),
      bi < pre.length → pre.getD bi 0 = bv →
      (∀ j < pre.length, pre.getD j 0 ≤ bv) →
      (∀ j < bi, pre.getD j 0 < bv) →
      isFirstArgmax (pre ++ rest) (argmaxAux rest pre.length bi bv) := by
  induction rest with
  | nil =>
    intro pre bi bv hbi hval hmax hfirst
    rw [List.append_nil]
    exact ⟨hbi, fun j hj => hval.symm ▸ hmax j hj,
      fun j hj => hval.symm ▸ hfirst j hj⟩
  | cons v tl ih =>
    intro pre bi bv hbi hval hmax hfirst
    have hsplit : pre ++ v :: tl = (pre ++ [v]) ++ tl := by
      simp
    have hlen : (pre ++ [v]).length = pre.length + 1 := by simp
    rw [hsplit]
    show isFirstArgmax ((pre ++ [v]) ++ tl)
      (if bv < v then argmaxAux tl (pre.length + 1) pre.length v
        else argmaxAux tl (pre.length + 1) bi bv)
    by_cases hv : bv < v
    · rw [if_pos hv, ← hlen]
      refine ih (pre ++ [v]) pre.length v (by rw [hlen]; omega) ?_ ?_ ?_
      · rw [List.getD_append_right _ _ _ _ (le_refl pre.length)]
        simp
      · intro j hj
        rw [hlen] at hj
        rcases Nat.lt_succ_iff_lt_or_eq.mp hj with hlt | heq
        · rw [List.getD_append _ _ _ _ hlt]
          exact le_of_lt (lt_of_le_of_lt (hmax j hlt) hv)
        · subst heq
          rw [List.getD_append_right _ _ _ _ (le_refl pre.length)]
          simp
      · intro j hj
        rw [List.getD_append _ _ _ _ hj]
        exact lt_of_le_of_lt (hmax j hj) hv
    · rw [if_neg hv, ← hlen]
      refine ih (pre ++ [v]) bi bv (by rw [hlen]; omega) ?_ ?_ ?_
      · rw [List.getD_append _ _ _ _ hbi]; exact hval
      · intro j hj
        rw [hlen] at hj
        rcases Nat.lt_succ_iff_lt_or_eq.mp hj with hlt | heq
        · rw [List.getD_append _ _ _ _ hlt]
          exact hmax j hlt
        · subst heq
          rw [List.getD_append_right _ _ _ _ (le_refl pre.length)]
          simpa using not_lt.mp hv
      · intro j hj
        rw [List.getD_append _ _ _ _ (hj.trans hbi)]
        exact hfirst j hj

theorem argmaxFirst_spec (l : List ℤ) (h : l ≠ []) :
    isFirstArgmax l (argmaxFirst l) := by
  match l with
  | v :: rest =>
    have h0 : (0 : ℕ) < ([v] : List ℤ).length := by simp
    have := argmaxAux_spec rest [v] 0 v h0 (by simp)
      (by
        intro j hj
        have hj0 : j = 0 := by simpa using hj
        subst hj0; simp)
      (by intro j hj; omega)
    simpa [argmaxFirst] using this

/-- Claim C4: `find_delay` reports success exactly when the recovered
lag is within `|sync_error_ppm * 1e-6 * block_size|` of the actual
delay, and the recovered lag is the arg-max of the correlation trace,
first occurrence on ties.  The function is total: failure is only ever
the returned flag. -/
theorem find_delay_success_iff_within_tolerance (intensity : List ℤ)
    (detections : List Bool) (cfg : SimulationConfig) (a : ℤ) :
    ((find_delay intensity detections cfg a).2.2.2 = true ↔
      |((find_delay intensity detections cfg a).2.2.1 : ℚ) - (a : ℚ)| ≤
        |cfg.sync_error_ppm * (1 / 1000000) * (cfg.block_size : ℚ)|) ∧
    ((find_delay intensity detections cfg a).2.1 ≠ [] →
      isFirstArgmax (find_delay intensity detections cfg a).2.1
        (find_delay intensity detections cfg a).2.2.1) := by
  constructor
  · show decide _ = true ↔ _
    exact decide_eq_true_iff
  · intro h
    exact argmaxFirst_spec _ h

theorem find_delay_success_iff_within_tolerance_witness :
    isFirstArgmax (find_delay [1] [true, false] cfgSmall 0).2.1
      (find_delay [1] [true, false] cfgSmall 0).2.2.1 :=
  (find_delay_success_iff_within_tolerance [1] [true, false] cfgSmall 0).2
    (by decide)

theorem sampleDetections_length (cfg : SimulationConfig) (g : Rng) (k : ℕ)
    (ext : List ℚ) : (sampleDetections cfg g k ext).length = ext.length := by
  simp [sampleDetections]

theorem choiceBlock_length (cfg : SimulationConfig) (p : ℚ) (g : Rng) (k n : ℕ) :
    (choiceBlock cfg p g k n).length = n := by
  simp [choiceBlock]

theorem apply_some_ok (states : List ℚ) (cfg : SimulationConfig) (g : Rng)
    (k : ℕ) (d : ℤ) (hp : ¬ choiceProbBad cfg.signal_prob) (hd : 0 ≤ d) :
    ∃ dets k', apply_channel_effects states cfg g k (some d) = Except.ok (dets, d, k') ∧
      dets.length = d.toNat + states.length + d.toNat := by
  refine ⟨sampleDetections cfg g (k + d.toNat + d.toNat)
      (choiceBlock cfg cfg.signal_prob g k d.toNat ++ states ++
        choiceBlock cfg cfg.signal_prob g (k + d.toNat) d.toNat),
    k + d.toNat + d.toNat +
      (choiceBlock cfg cfg.signal_prob g k d.toNat ++ states ++
        choiceBlock cfg cfg.signal_prob g (k + d.toNat) d.toNat).length,
    ?_, ?_⟩
  · simp only [apply_channel_effects]
    rw [if_neg hp, if_neg (not_lt.mpr hd)]
  · rw [sampleDetections_length]
    simp [choiceBlock_length]
    omega

theorem apply_none_ok (states : List ℚ) (cfg : SimulationConfig) (g : Rng)
    (k : ℕ) (hp : ¬ choiceProbBad cfg.signal_prob) (hmo : 0 ≤ cfg.max_offset) :
    ∃ dets dly k',
      apply_channel_effects states cfg g k none = Except.ok (dets, dly, k') ∧
      0 ≤ dly ∧ dets.length = dly.toNat + states.length + dly.toNat := by
  have hdly : (0 : ℤ) ≤ cfg.max_offset + (randBelow (g k) 1001 : ℤ) := by
    have : (0 : ℤ) ≤ (randBelow (g k) 1001 : ℤ) := Int.ofNat_nonneg _
    omega
  refine ⟨sampleDetections cfg g
      (k + 1 + (cfg.max_offset + (randBelow (g k) 1001 : ℤ)).toNat +
        (cfg.max_offset + (randBelow (g k) 1001 : ℤ)).toNat)
      (choiceBlock cfg cfg.signal_prob g (k + 1)
          (cfg.max_offset + (randBelow (g k) 1001 : ℤ)).toNat ++ states ++
        choiceBlock cfg cfg.signal_prob g
          (k + 1 + (cfg.max_offset + (randBelow (g k) 1001 : ℤ)).toNat)
          (cfg.max_offset + (randBelow (g k) 1001 : ℤ)).toNat),
    cfg.max_offset + (randBelow (g k) 1001 : ℤ),
    k + 1 + (cfg.max_offset + (randBelow (g k) 1001 : ℤ)).toNat +
        (cfg.max_offset + (randBelow (g k) 1001 : ℤ)).toNat +
      (choiceBlock cfg cfg.signal_prob g (k + 1)
          (cfg.max_offset + (randBelow (g k) 1001 : ℤ)).toNat ++ states ++
        choiceBlock cfg cfg.signal_prob g
          (k + 1 + (cfg.max_offset + (randBelow (g k) 1001 : ℤ)).toNat)
          (cfg.max_offset + (randBelow (g k) 1001 : ℤ)).toNat).length,
    ?_, hdly, ?_⟩
  · simp only [apply_channel_effects]
    rw [if_neg hp, if_neg (not_lt.mpr hdly)]
  · rw [sampleDetections_length]
    simp [choiceBlock_length]
    omega

/-- Claim C6: for a pulse block of length `block_size`, the detection
sequence returned by `apply_channel_effects` has length
`block_size + 2 * delay` for the delay it returns — both when the
caller injects the delay and when it is drawn from the stream. -/
theorem apply_channel_effects_detection_length (states : List ℚ)
    (cfg : SimulationConfig) (g : Rng) (k : ℕ)
    (hlen : (states.length : ℤ) = cfg.block_size)
    (hp : ¬ choiceProbBad cfg.signal_prob) :
    (∀ d : ℤ, 0 ≤ d →
      ∃ dets k', apply_channel_effects states cfg g k (some d)
          = Except.ok (dets, d, k') ∧
        (dets.length : ℤ) = cfg.block_size + 2 * d) ∧
    (0 ≤ cfg.max_offset →
      ∃ dets dly k', apply_channel_effects states cfg g k none
          = Except.ok (dets, dly, k') ∧
        (dets.length : ℤ) = cfg.block_size + 2 * dly) := by
  constructor
  · intro d hd
    obtain ⟨dets, k', heq, hl⟩ := apply_some_ok states cfg g k d hp hd
    refine ⟨dets, k', heq, ?_⟩
    have := Int.toNat_of_nonneg hd
    omega
  · intro hmo
    obtain ⟨dets, dly, k', heq, hdly, hl⟩ := apply_none_ok states cfg g k hp hmo
    refine ⟨dets, dly, k', heq, ?_⟩
    have := Int.toNat_of_nonneg hdly
    omega

theorem apply_channel_effects_detection_length_witness :
    (([1, 1] : List ℚ).length : ℤ) = cfgSmall.block_size ∧
    ∃ dets k', apply_channel_effects [1, 1] cfgSmall gHalf 0 (some 3)
        = Except.ok (dets, 3, k') ∧
      (dets.length : ℤ) = cfgSmall.block_size + 2 * 3 :=
  ⟨by norm_num [cfgSmall],
    (apply_channel_effects_detection_length [1, 1] cfgSmall gHalf 0
      (by norm_num [cfgSmall])
      (by norm_num [choiceProbBad, cfgSmall])).1 3 (by norm_num)⟩

/-- A config whose two pulse powers coincide (`mu1 = mu2 = 1`). -/
def cfgEqPow : SimulationConfig := {
  signal_power := 1, decoy_power := 1, signal_prob := 1/2,
  dark_count_rate := 100, time_bin := 100,
  channel_loss_db := 0, sync_error_ppm := 0,
  block_size := 1, max_offset := 0 }

/-- A uniform stream that is constantly `3/4`. -/
def gThreeQuarters : Rng := fun _ => 3/4

/-- A uniform stream that is constantly `1/4`. -/
def gQuarter : Rng := fun _ => 1/4

/-- Claim C3, counterexample: with `signal_power = decoy_power = 1` and
a uniform draw of `3/4` against `signal_prob = 1/2`, the Bernoulli
outcome selects the decoy state (indicator bit `0`), yet the code's
comparison `states == signal_power` reports the indicator `[1]`. -/
theorem generate_states_indicator_not_bernoulli :
    generate_states cfgEqPow gThreeQuarters 0 = Except.ok ([1], [1], 1) ∧
    ¬ (gThreeQuarters 0 < cfgEqPow.signal_prob) := by
  constructor
  · norm_num [generate_states, choiceProbBad, choiceBlock, choiceDraw,
      cfgEqPow, gThreeQuarters]
  · norm_num [gThreeQuarters, cfgEqPow]

/-- Claim C3, amended: the indicator array is derived by comparing the
sampled pulse values against `signal_power`; this equals the Bernoulli
outcome of each draw provided `signal_power ≠ decoy_power`. -/
theorem generate_states_indicator_of_ne (cfg : SimulationConfig) (g : Rng)
    (k : ℕ) (hne : cfg.signal_power ≠ cfg.decoy_power)
    (states : List ℚ) (intensity : List ℤ) (k' : ℕ)
    (h : generate_states cfg g k = Except.ok (states, intensity, k')) :
    intensity = (List.range cfg.block_size.toNat).map
      (fun i => if g (k + i) < cfg.signal_prob then (1 : ℤ) else 0) := by
  unfold generate_states at h
  by_cases h1 : choiceProbBad cfg.signal_prob
  · rw [if_pos h1] at h; cases h
  rw [if_neg h1] at h
  by_cases h2 : cfg.block_size < 0
  · rw [if_pos h2] at h; cases h
  rw [if_neg h2] at h
  cases h
  rw [choiceBlock, List.map_map]
  congr 1
  funext i
  by_cases hc : g (k + i) < cfg.signal_prob
  · simp [Function.comp, choiceDraw, hc]
  · simp [Function.comp, choiceDraw, hc, Ne.symm hne]

theorem generate_states_indicator_of_ne_witness :
    ([1, 1] : List ℤ) = (List.range cfgSmall.block_size.toNat).map
      (fun i => if gQuarter (0 + i) < cfgSmall.signal_prob then (1 : ℤ) else 0) :=
  generate_states_indicator_of_ne cfgSmall gQuarter 0
    (by norm_num [cfgSmall]) [1, 1] [1, 1] 2
    (by
      norm_num [generate_states, choiceProbBad, choiceBlock, choiceDraw,
        cfgSmall, gQuarter, List.range_succ]
      decide)

/-- Claim C2: when `totalCounts > 0` the returned QBER is the finite
value `(dark_count_rate * time_bin_seconds) / (totalCounts / len)`;
but when `totalCounts == 0` the source divides by zero, and the numpy
quotient — positive infinity here, since the dark-count contribution is
positive — flows into the result instead of an explicit "undefined"
sentinel. -/
theorem calculate_statistics_qber (detections : List Bool)
    (cfg : SimulationConfig) :
    (0 < countTrue detections →
      (calculate_statistics detections cfg).2.2 =
        NpVal.fin ((cfg.dark_count_rate * (cfg.time_bin * picoScale)) /
          ((countTrue detections : ℚ) / (detections.length : ℚ)))) ∧
    (calculate_statistics [false, false] cfgSmall).2.2 = NpVal.pinf := by
  constructor
  · intro hpos
    have hlen : 0 < detections.length := by
      unfold countTrue at hpos
      have := List.length_filter_le (fun b => b) detections
      omega
    have hlq : ((detections.length : ℚ)) ≠ 0 := Nat.cast_ne_zero.mpr (by omega)
    have htq : ((countTrue detections : ℚ)) ≠ 0 := Nat.cast_ne_zero.mpr (by omega)
    show npDivV _ (npDiv (((countTrue detections : ℤ) : ℚ)) _) = _
    rw [npDiv, if_neg hlq]
    rw [npDivV, npDiv, if_neg (div_ne_zero (by push_cast; exact htq) hlq)]
    push_cast
    rfl
  · norm_num [calculate_statistics, countTrue, npDiv, npDivV, cfgSmall, picoScale]

theorem calculate_statistics_qber_witness :
    0 < countTrue [true] ∧
    (calculate_statistics [true] cfgSmall).2.2 =
      NpVal.fin ((cfgSmall.dark_count_rate * (cfgSmall.time_bin * picoScale)) /
        ((countTrue [true] : ℚ) / (([true] : List Bool).length : ℚ))) :=
  ⟨by decide, (calculate_statistics_qber [true] cfgSmall).1 (by decide)⟩

/-- A config whose detection probability exceeds 1:
`loss = 0 dB` and `dark_count_rate * time_bin * 1e-12 = 2`. -/
def cfgHot : SimulationConfig := {
  signal_power := 2, decoy_power := 2, signal_prob := 1/2,
  dark_count_rate := 2000000000000, time_bin := 1,
  channel_loss_db := 0, sync_error_ppm := 0,
  block_size := 1, max_offset := 0 }

theorem attenuation_cfgHot : attenuation cfgHot = 1 := by
  have h : ((cfgHot.channel_loss_db : ℝ) / 10) = 0 := by
    norm_num [cfgHot]
  rw [attenuation, h, Real.rpow_zero]

theorem darkProb_cfgHot : darkProb cfgHot = 1 - Real.exp (-2) := by
  rw [darkProb]
  norm_num [cfgHot, picoScale]

theorem detectionProb_cfgHot :
    detectionProb cfgHot 2 = 2 - 2 * Real.exp (-2) := by
  rw [detectionProb, attenuation_cfgHot, darkProb_cfgHot]
  push_cast
  rw [mul_one]
  ring

theorem one_lt_detectionProb_cfgHot : 1 < detectionProb cfgHot 2 := by
  rw [detectionProb_cfgHot]
  have h2 : (2 : ℝ) < Real.exp 2 := by
    have := Real.add_one_lt_exp (two_ne_zero)
    linarith
  have hexp : Real.exp (-2) < 1/2 := by
    rw [Real.exp_neg]
    have := inv_strictAnti₀ (by norm_num : (0:ℝ) < 2) h2
    linarith
  linarith

/-- Claim C5: each bin of the extended pulse sequence is detected with
probability `1 - exp(-pulse * attenuation) + darkProb`, where
`attenuation = 10^(loss_db/10)` and
`darkProb = 1 - exp(-dark_count_rate * time_bin_seconds)`; the value is
used unclamped — for `cfgHot` it exceeds 1, so even a uniform draw of
`1` (which a `[0,1]`-clamped probability could never beat) produces a
detection. -/
theorem detectionProb_formula_and_unclamped :
    (∀ (cfg : SimulationConfig) (pulse : ℚ),
      detectionProb cfg pulse
        = 1 - Real.exp (-((pulse : ℝ) * (10 : ℝ) ^ ((cfg.channel_loss_db : ℝ) / 10)))
          + (1 - Real.exp (-((cfg.dark_count_rate : ℝ) * (cfg.time_bin : ℝ) *
              (picoScale : ℝ))))) ∧
    1 < detectionProb cfgHot 2 ∧
    (∀ k, sampleDetections cfgHot (fun _ => 1) k [2] = [true]) := by
  refine ⟨fun cfg pulse => rfl, one_lt_detectionProb_cfgHot, fun k => ?_⟩
  have hgt : (1 : ℝ) < detectionProb cfgHot 2 := one_lt_detectionProb_cfgHot
  simp [sampleDetections, List.range_succ, hgt]

/-- The config `validate_config` produces from `rawGood`. -/
def cfgGood : SimulationConfig := {
  signal_power := 1/10, decoy_power := 1/20, signal_prob := 4/5,
  dark_count_rate := 100, time_bin := 100,
  channel_loss_db := 1/5, sync_error_ppm := 1/10,
  block_size := 1000, max_offset := 50 }

/-- Claim C8, counterexample: the raw config with `alice.p1 = 1.5`
passes validation, and `run` then raises — `np.random.choice` rejects
the probability vector `[1.5, -0.5]` inside the state-generation stage,
after validation has succeeded. -/
theorem run_raises_after_validation :
    validate_config rawP1Bad = Except.ok cfgP1Bad ∧
    run rawP1Bad gHalf = Except.error "probabilities are not non-negative" := by
  refine ⟨rfl, ?_⟩
  have h1 : choiceProbBad cfgP1Bad.signal_prob := by
    norm_num [choiceProbBad, cfgP1Bad]
  simp only [run, show validate_config rawP1Bad = Except.ok cfgP1Bad from rfl,
    generate_states, if_pos h1]

/-- Claim C8, amended: `run` cannot fail after validation provided the
validated config also satisfies the range constraints the spec assigns
to validation (`0 ≤ signal_prob ≤ 1`, `block_size` a positive integer,
non-negative `max_offset`); under those constraints every later stage
is total and `run` returns a result.  Positivity of `block_size` is
needed: at `block_size = 0` the indicator array is empty, scipy's
valid-mode correlation returns an empty array, and `np.argmax` raises
even though validation succeeded. -/
theorem run_total_on_spec_valid_config (raw : RawConfig) (g : Rng)
    (cfg : SimulationConfig) (hv : validate_config raw = Except.ok cfg)
    (h0 : 0 ≤ cfg.signal_prob) (h1 : cfg.signal_prob ≤ 1)
    (hbs : 1 ≤ cfg.block_size) (hmo : 0 ≤ cfg.max_offset) :
    ∃ r, run raw g = Except.ok r := by
  have hbs0 : ¬ (cfg.block_size < 0) := by omega
  have hp : ¬ choiceProbBad cfg.signal_prob := by
    unfold choiceProbBad
    push_neg
    exact ⟨h0, by linarith⟩
  obtain ⟨dets, dly, k', heq, hdly, hl⟩ :=
    apply_none_ok (choiceBlock cfg cfg.signal_prob g 0 cfg.block_size.toNat)
      cfg g (0 + cfg.block_size.toNat) hp hmo
  have hne : ¬ ((choiceBlock cfg cfg.signal_prob g 0 cfg.block_size.toNat).map
      (fun s => if s = cfg.signal_power then (1 : ℤ) else 0) = [] ∨
      dets = []) := by
    rintro (hemp | hemp)
    · have hlen0 := congrArg List.length hemp
      simp [choiceBlock] at hlen0
      omega
    · rw [hemp] at hl
      simp [choiceBlock] at hl
      omega
  cases hr : run raw g with
  | error e =>
    exfalso
    simp only [run, hv, generate_states, if_neg hp, if_neg hbs0,
      heq, if_neg hne] at hr
    exact Except.noConfusion hr
  | ok r => exact ⟨r, rfl⟩

theorem run_total_on_spec_valid_config_witness :
    ∃ r, run rawGood gHalf = Except.ok r :=
  run_total_on_spec_valid_config rawGood gHalf cfgGood rfl
    (by norm_num [cfgGood]) (by norm_num [cfgGood])
    (by norm_num [cfgGood]) (by norm_num [cfgGood])

/-- The config `validate_config` produces from `rawBS0`. -/
def cfgBS0 : SimulationConfig := {
  signal_power := 1/10, decoy_power := 1/20, signal_prob := 4/5,
  dark_count_rate := 100, time_bin := 100,
  channel_loss_db := 1/5, sync_error_ppm := 1/10,
  block_size := 0, max_offset := 50 }

-- At `block_size = 0` the `run` pipeline raises after validation: the
-- indicator array is empty, so the valid-mode correlation is empty and
-- `np.argmax` raises.  This is why the amended C8 requires a positive
-- `block_size`.
example :
    run rawBS0 gHalf = Except.error "attempt to get argmax of an empty sequence" := by
  have hp : ¬ choiceProbBad cfgBS0.signal_prob := by
    norm_num [choiceProbBad, cfgBS0]
  have hbs : ¬ (cfgBS0.block_size < 0) := by norm_num [cfgBS0]
  obtain ⟨dets, dly, k', heq, hdly, hl⟩ :=
    apply_none_ok
      (choiceBlock cfgBS0 cfgBS0.signal_prob gHalf 0 cfgBS0.block_size.toNat)
      cfgBS0 gHalf (0 + cfgBS0.block_size.toNat) hp (by norm_num [cfgBS0])
  have hguard :
      (choiceBlock cfgBS0 cfgBS0.signal_prob gHalf 0 cfgBS0.block_size.toNat).map
        (fun s => if s = cfgBS0.signal_power then (1 : ℤ) else 0) = [] ∨
      dets = [] := by
    left
    simp [choiceBlock, cfgBS0]
  simp only [run, show validate_config rawBS0 = Except.ok cfgBS0 from rfl,
    generate_states, if_neg hp, if_neg hbs, heq, if_pos hguard]

/-- Claim C10: `find_delay` never reads `max_offset`: changing only that
field leaves the whole output (time axis, trace, recovered delay,
success flag) unchanged; concretely, with `max_offset = 0` the recovered
delay can still be `1`, so the search is not restricted to
`[0, max_offset]`. -/
theorem find_delay_ignores_max_offset :
    (∀ (intensity : List ℤ) (detections : List Bool)
        (cfg : SimulationConfig) (m a : ℤ),
      find_delay intensity detections { cfg with max_offset := m } a
        = find_delay intensity detections cfg a) ∧
    (find_delay [1] [true, false] cfgSmall 0).2.2.1 = 1 ∧
    cfgSmall.max_offset = 0 :=
  ⟨fun _ _ _ _ _ => rfl, by decide, rfl⟩

